import Mathlib

/-!
Verification of the chart-data inference engine in
`backend/app/tools/chart_generator.py`.

The Python code is shallowly embedded: scalar record values become the
inductive type `SVal`, records become association lists, machine floats are
idealised as exact rationals (`ℚ`), and Python exceptions become explicit
`Except`/`Option` results.  Every definition mirrors one Python function or
statement block; the mirrored lines are cited in the doc comments.
-/

set_option maxRecDepth 4000

/-- A scalar JSON/record value as it appears as the value of a record field.
Python `bool` is kept separate from `int` because `str()` renders it
differently, but note that `isinstance(True, int)` holds in Python, so
booleans participate in numeric detection.  Machine floats are idealised as
exact rationals. -/
inductive SVal where
  | snull : SVal
  | sbool : Bool → SVal
  | sint : Int → SVal
  | sfloat : ℚ → SVal
  | sstr : String → SVal
deriving DecidableEq, Repr

/-- Model of Python `str(v)` for scalar values, used only for the
`unique_count` computation (`set(str(v) for v in values)`).
For non-integral floats Python prints a decimal repr; we use the `ℚ`
repr, which is still injective on non-integral rationals and disjoint from
the integer representations used elsewhere. -/
def strRepr : SVal → String
  | .snull => "None"
  | .sbool true => "True"
  | .sbool false => "False"
  | .sint n => toString n
  | .sfloat q => if q.den = 1 then toString q.num ++ ".0" else toString q
  | .sstr s => s

/-- Digits of a char list interpreted as a base-10 natural number. -/
def natOfDigits (cs : List Char) : Nat :=
  cs.foldl (fun a c => 10 * a + (c.toNat - '0'.toNat)) 0

/-- Mantissa/exponent part of the model of Python `float(str)`:
`digits [. digits]` with at least one digit overall, then an optional
`e`/`E` exponent with optional sign and at least one digit. -/
def pyFloatMantissa (cs : List Char) : Option ℚ :=
  let intPart := cs.takeWhile Char.isDigit
  let rest := cs.dropWhile Char.isDigit
  match rest with
  | '.' :: rest2 =>
    let fracPart := rest2.takeWhile Char.isDigit
    let rest3 := rest2.dropWhile Char.isDigit
    if intPart.isEmpty && fracPart.isEmpty then none
    else
      let base : ℚ := (natOfDigits intPart : ℚ) +
        (natOfDigits fracPart : ℚ) / ((10 : ℚ) ^ fracPart.length)
      match rest3 with
      | [] => some base
      | e :: rest4 =>
        if e = 'e' ∨ e = 'E' then
          let (esign, rest5) := match rest4 with
            | '-' :: r => ((-1 : ℤ), r)
            | '+' :: r => ((1 : ℤ), r)
            | r => ((1 : ℤ), r)
          if rest5 ≠ [] ∧ rest5.all Char.isDigit then
            some (base * (10 : ℚ) ^ (esign * (natOfDigits rest5 : ℤ)))
          else none
        else none
  | [] => if intPart.isEmpty then none else some (natOfDigits intPart : ℚ)
  | e :: rest2 =>
    if intPart.isEmpty then none
    else if e = 'e' ∨ e = 'E' then
      let (esign, rest5) := match rest2 with
        | '-' :: r => ((-1 : ℤ), r)
        | '+' :: r => ((1 : ℤ), r)
        | r => ((1 : ℤ), r)
      if rest5 ≠ [] ∧ rest5.all Char.isDigit then
        some ((natOfDigits intPart : ℚ) * (10 : ℚ) ^ (esign * (natOfDigits rest5 : ℤ)))
      else none
    else none

/-- Model of Python `float(s)`: surrounding whitespace is stripped, an
optional sign precedes a decimal mantissa with optional exponent.
Python's `inf`/`nan` literals and digit-group underscores are not modelled
(they are not representable in `ℚ` and do not occur in this code's data). -/
def pyFloat (s : String) : Option ℚ :=
  let cs := (s.data.dropWhile Char.isWhitespace).reverse.dropWhile Char.isWhitespace |>.reverse
  match cs with
  | '-' :: rest => (pyFloatMantissa rest).map (fun q => -q)
  | '+' :: rest => pyFloatMantissa rest
  | rest => pyFloatMantissa rest

/-- Python `c in s` for a single character (character membership). -/
def strHasChar (s : String) (c : Char) : Bool := s.data.contains c

/-- Python `s.replace(c, "")` for a single-character pattern: drop every
occurrence. -/
def removeChar (s : String) (c : Char) : String :=
  String.mk (s.data.filter (fun x => x != c))

/-- Python `s.replace(c, r)` for single characters. -/
def replaceChar (s : String) (c r : Char) : String :=
  String.mk (s.data.map (fun x => if x = c then r else x))

/-- One step of the numeric-detection loop of `_analyze_field`
(chart_generator.py lines 166-185): returns the parsed numeric value (if
any) and whether this value set the `is_percentage` / `is_currency` flag.
A string containing `%` goes down the percentage branch; otherwise a string
containing a currency symbol is cleaned to digits and dots; otherwise a
plain `float()` parse is attempted.  Failures are skipped. -/
def numStep (v : SVal) : Option ℚ × Bool × Bool :=
  match v with
  | .sint n => (some (n : ℚ), false, false)
  | .sfloat q => (some q, false, false)
  | .sbool b => (some (if b then (1 : ℚ) else 0), false, false)
  | .sstr s =>
    if strHasChar s '%' then
      match pyFloat (removeChar s '%') with
      | some q => (some q, true, false)
      | none => (none, false, false)
    else if strHasChar s '$' ∨ strHasChar s '€' ∨ strHasChar s '£' ∨ strHasChar s '¥' then
      let clean := String.mk (s.data.filter (fun c => c.isDigit ∨ c = '.'))
      if clean = "" then (none, false, false)
      else
        match pyFloat clean with
        | some q => (some q, false, true)
        | none => (none, false, false)
    else
      match pyFloat s with
      | some q => (some q, false, false)
      | none => (none, false, false)
  | .snull => (none, false, false)

/-- The numeric-detection loop of `_analyze_field`: the list of
successfully parsed numeric values in order, plus the final
`is_percentage` and `is_currency` flags (sticky once set). -/
def numericScan : List SVal → List ℚ × Bool × Bool
  | [] => ([], false, false)
  | v :: vs =>
    let r := numericScan vs
    match numStep v with
    | (some q, p, c) => (q :: r.1, p || r.2.1, c || r.2.2)
    | (none, _, _) => r

/-- Python `min(list)` on a non-empty list; the `[]` case is never reached
by the embedded code (the numeric branch guarantees a non-empty list). -/
def listMin : List ℚ → ℚ
  | [] => 0
  | x :: xs => xs.foldl min x

/-- Python `max(list)` on a non-empty list (same proviso as `listMin`). -/
def listMax : List ℚ → ℚ
  | [] => 0
  | x :: xs => xs.foldl max x

/-- Python `sum(list)`. -/
def listSum (l : List ℚ) : ℚ := l.foldl (· + ·) 0

/-- The numeric fields a `strptime` directive can fill. -/
inductive DField where
  | fY | fm | fd | fH | fM | fS
deriving DecidableEq, Repr

/-- One token of a strptime format: a literal character or a numeric
directive. -/
inductive DTok where
  | lit : Char → DTok
  | num : DField → DTok
deriving DecidableEq, Repr

/-- A date pattern as it appears in the `date_patterns` list of
`_analyze_field`: the original Python format string plus its token
decomposition. -/
structure DPattern where
  fmt : String
  toks : List DTok
deriving DecidableEq, Repr

/-- Parsed date/time components with `strptime` defaults. -/
structure DParsed where
  y : Nat := 1900
  m : Nat := 1
  d : Nat := 1
  hh : Nat := 0
  mi : Nat := 0
  ss : Nat := 0
deriving DecidableEq, Repr

/-- Valid value range of each 1-2 digit strptime directive, per the
regexes in CPython `_strptime.py`. -/
def fieldRange : DField → Nat × Nat
  | .fY => (1, 9999)
  | .fm => (1, 12)
  | .fd => (1, 31)
  | .fH => (0, 23)
  | .fM => (0, 59)
  | .fS => (0, 59)

/-- Store a parsed component. -/
def setField (st : DParsed) : DField → Nat → DParsed
  | .fY, v => { st with y := v }
  | .fm, v => { st with m := v }
  | .fd, v => { st with d := v }
  | .fH, v => { st with hh := v }
  | .fM, v => { st with mi := v }
  | .fS, v => { st with ss := v }

/-- Run a token list against the characters of a candidate string, in the
manner of `datetime.strptime`: `%Y` consumes exactly four digits, the
other directives consume one or two digits greedily, literals must match
exactly, and the whole string must be consumed.  (Greedy matching is
equivalent to CPython's regex here because every directive is followed by
a non-digit literal or the end of the string.) -/
def runToks : List DTok → List Char → DParsed → Option DParsed
  | [], [], st => some st
  | [], _ :: _, _ => none
  | .lit c :: ts, x :: xs, st => if x = c then runToks ts xs st else none
  | .lit _ :: _, [], _ => none
  | .num f :: ts, xs, st =>
    let ds := xs.takeWhile Char.isDigit
    match f with
    | .fY =>
      if ds.length < 4 then none
      else
        let v := natOfDigits (ds.take 4)
        if 1 ≤ v then runToks ts (xs.drop 4) (setField st .fY v) else none
    | f' =>
      let k := min 2 ds.length
      if k = 0 then none
      else
        let v := natOfDigits (ds.take k)
        if (fieldRange f').1 ≤ v ∧ v ≤ (fieldRange f').2 then
          runToks ts (xs.drop k) (setField st f' v)
        else none

/-- Gregorian leap-year rule, as used by `datetime`. -/
def isLeap (y : Nat) : Bool := y % 4 = 0 && (y % 100 ≠ 0 || y % 400 = 0)

/-- Days in a month, as validated by the `datetime` constructor. -/
def daysInMonth (y m : Nat) : Nat :=
  if m = 2 then (if isLeap y then 29 else 28)
  else if m = 4 ∨ m = 6 ∨ m = 9 ∨ m = 11 then 30
  else 31

/-- Model of `datetime.strptime(s, pattern)` succeeding: the token run
must consume the whole string and the resulting day must exist in the
resulting month (the `datetime` constructor check). -/
def strptimeOk (p : DPattern) (s : String) : Bool :=
  match runToks p.toks s.data {} with
  | some st => st.d ≤ daysInMonth st.y st.m
  | none => false

/-- `"%Y-%m-%d"`. -/
def patYmd : DPattern :=
  ⟨"%Y-%m-%d", [.num .fY, .lit '-', .num .fm, .lit '-', .num .fd]⟩

/-- `"%Y-%m"`. -/
def patYm : DPattern := ⟨"%Y-%m", [.num .fY, .lit '-', .num .fm]⟩

/-- `"%m/%d/%Y"`. -/
def patMdY : DPattern :=
  ⟨"%m/%d/%Y", [.num .fm, .lit '/', .num .fd, .lit '/', .num .fY]⟩

/-- `"%d/%m/%Y"`. -/
def patDmY : DPattern :=
  ⟨"%d/%m/%Y", [.num .fd, .lit '/', .num .fm, .lit '/', .num .fY]⟩

/-- `"%Y-%m-%dT%H:%M:%S"`. -/
def patYmdT : DPattern :=
  ⟨"%Y-%m-%dT%H:%M:%S",
   [.num .fY, .lit '-', .num .fm, .lit '-', .num .fd, .lit 'T',
    .num .fH, .lit ':', .num .fM, .lit ':', .num .fS]⟩

/-- `"%Y-%m-%d %H:%M:%S"`. -/
def patYmdSp : DPattern :=
  ⟨"%Y-%m-%d %H:%M:%S",
   [.num .fY, .lit '-', .num .fm, .lit '-', .num .fd, .lit ' ',
    .num .fH, .lit ':', .num .fM, .lit ':', .num .fS]⟩

/-- The `date_patterns` list of `_analyze_field` (lines 193-196), in
declared order. -/
def datePatterns : List DPattern :=
  [patYmd, patYm, patMdY, patDmY, patYmdT, patYmdSp]

/-- The classification a matching pattern yields (line 206):
`"date"` when the format string contains neither `T` nor `:`, else
`"datetime"`. -/
def kindOf (p : DPattern) : String :=
  if ¬ strHasChar p.fmt 'T' ∧ ¬ strHasChar p.fmt ':' then "date" else "datetime"

/-- The inner loop of the date check (lines 200-204), with its Python
exception semantics: non-string values are skipped; a string value that
fails to parse raises `ValueError`, aborting the whole pattern (result
`none`).  On success the result is the number of (string) values that
parsed. -/
def tryPattern (p : DPattern) : List SVal → Option Nat
  | [] => some 0
  | .sstr s :: vs =>
    if strptimeOk p s then (tryPattern p vs).map (· + 1) else none
  | _ :: vs => tryPattern p vs

/-- Whether one pattern clears the bar of line 205:
`len(parsed_dates) > len(values[:10]) * 0.8` (the comparison is exact for
the list lengths that can occur here, so `0.8` is modelled as `4/5`). -/
def patternHit (p : DPattern) (values : List SVal) : Bool :=
  let pre := values.take 10
  match tryPattern p pre with
  | some k => 5 * k > 4 * pre.length
  | none => false

/-- The date-pattern loop of `_analyze_field` (lines 198-210): the first
pattern in declared order that clears its bar, if any. -/
def dateDetect (values : List SVal) : Option DPattern :=
  datePatterns.find? (fun p => patternHit p values)

/-- The classifier's per-field output (`field_analysis` dict of
`_analyze_field`).  `range`/`average` are `Option`s because the Python
dict only gains those keys in the numeric branch. -/
structure FieldAnalysis where
  type : String
  sample_values : List SVal
  unique_count : Nat
  is_percentage : Bool
  is_currency : Bool
  date_formats : List String
  range : Option (ℚ × ℚ)
  average : Option ℚ
deriving DecidableEq, Repr

/-- `_analyze_field` (chart_generator.py lines 153-219), staged exactly as
the source: numeric detection with the strict `> 80%` threshold, then the
date-pattern loop (run unconditionally, overwriting `type` on a hit), then
the categorical/text fallback for a still-`unknown` type
(`unique_count < len(values) * 0.5`, i.e. `2 * unique_count < len`). -/
def analyzeField (fieldName : String) (values : List SVal) : FieldAnalysis :=
  let scan := numericScan values
  let nums := scan.1
  let base : FieldAnalysis :=
    { type := "unknown"
      sample_values := values.take 5
      unique_count := (values.map strRepr).dedup.length
      is_percentage := scan.2.1
      is_currency := scan.2.2
      date_formats := []
      range := none
      average := none }
  let fa1 :=
    if nums.length * 5 > values.length * 4 then
      { base with
          type := "numeric"
          range := some (listMin nums, listMax nums)
          average := some (listSum nums / (nums.length : ℚ)) }
    else base
  let fa2 :=
    match dateDetect values with
    | some p => { fa1 with type := kindOf p, date_formats := fa1.date_formats ++ [p.fmt] }
    | none => fa1
  if fa2.type = "unknown" then
    if fa2.unique_count * 2 < values.length then { fa2 with type := "categorical" }
    else { fa2 with type := "text" }
  else fa2

/-- A record: field names mapped to scalar values, in insertion order
(Python dicts preserve insertion order and have unique keys). -/
abbrev Record := List (String × SVal)

/-- A parsed top-level JSON value, as `json.loads` can yield it (or as a
caller can pass directly): scalars, a record, or a list. -/
inductive JVal where
  | jnull : JVal
  | jbool : Bool → JVal
  | jint : Int → JVal
  | jfloat : ℚ → JVal
  | jstr : String → JVal
  | jobj : Record → JVal
  | jarr : List JVal → JVal

/-- Python `dict.get(field)`: the value of the first (unique) binding. -/
def aget : Record → String → Option SVal
  | [], _ => none
  | (k, v) :: r, f => if k = f then some v else aget r f

/-- Python truthiness of a parsed value (`if not data`). -/
def jTruthy : JVal → Bool
  | .jnull => false
  | .jbool b => b
  | .jint n => n != 0
  | .jfloat q => q != 0
  | .jstr s => s != ""
  | .jobj r => !r.isEmpty
  | .jarr l => !l.isEmpty

/-- The field names of a record item, `[]` for non-records
(`list(sample.keys()) if isinstance(sample, dict) else []`). -/
def recordKeys : JVal → List String
  | .jobj r => r.map Prod.fst
  | _ => []

/-- Whether an item is a record (`isinstance(point, dict)`). -/
def isObjB : JVal → Bool
  | .jobj _ => true
  | _ => false

/-- The value extraction of `_analyze_data_structure` line 117:
`[item.get(field) for item in data if item.get(field) is not None]`.
Calling `.get` on a non-dict item raises `AttributeError`, modelled as
`Except.error`; `None` values (absent key or explicit null) are filtered. -/
def getFieldValues : List JVal → String → Except String (List SVal)
  | [], _ => .ok []
  | .jobj r :: items, f =>
    (getFieldValues items f).map (fun rest =>
      match aget r f with
      | some v => if v = .snull then rest else v :: rest
      | none => rest)
  | _ :: _, _ => .error "AttributeError: object has no attribute get"

/-- The dataset-level analysis dict built by `_analyze_data_structure`. -/
structure Analysis where
  total_records : Nat
  fields : List String
  field_types : List (String × FieldAnalysis)
  has_time_series : Bool
  has_categories : Bool
  has_percentages : Bool
  suggested_x_field : Option String
  suggested_y_field : Option String
  data_patterns : List String
deriving DecidableEq, Repr

/-- Python falsiness of an optional string slot
(`if not analysis["suggested_x_field"]`): `None` and `""` are falsy. -/
def optFalsy : Option String → Bool
  | none => true
  | some s => s = ""

/-- The per-field fold of `_analyze_data_structure` (lines 116-140):
fields whose observed values are all null are skipped; otherwise the field
is classified and the dataset-level flags and axis suggestions updated in
source order. -/
def analyzeFieldsLoop (data : List JVal) : List String → Analysis → Except String Analysis
  | [], a => .ok a
  | f :: fs, a => do
    let values ← getFieldValues data f
    if values = [] then
      analyzeFieldsLoop data fs a
    else
      let fa := analyzeField f values
      let a1 := { a with field_types := a.field_types ++ [(f, fa)] }
      let a2 :=
        if fa.type = "date" ∨ fa.type = "datetime" then
          { a1 with
              has_time_series := true
              suggested_x_field :=
                if optFalsy a1.suggested_x_field then some f else a1.suggested_x_field }
        else a1
      let a3 := if fa.is_percentage then { a2 with has_percentages := true } else a2
      let a4 := if fa.type = "categorical" then { a3 with has_categories := true } else a3
      let a5 :=
        if fa.type = "numeric" ∧ optFalsy a4.suggested_y_field then
          { a4 with suggested_y_field := some f }
        else a4
      analyzeFieldsLoop data fs a5

/-- `_analyze_data_structure` (lines 94-150).  For empty data the source
returns an empty dict; every key consumed downstream then defaults to the
same contents as this zero-initialised analysis, so the two are
behaviourally identical. -/
def analyzeDataStructure (data : List JVal) : Except String Analysis :=
  let fields :=
    match data.head? with
    | some it => recordKeys it
    | none => []
  let init : Analysis :=
    { total_records := data.length
      fields := fields
      field_types := []
      has_time_series := false
      has_categories := false
      has_percentages := false
      suggested_x_field := none
      suggested_y_field := none
      data_patterns := [] }
  do
    let a ← analyzeFieldsLoop data fields init
    let pats :=
      (if a.has_time_series then ["time_series"] else [])
        ++ (if a.has_categories && a.has_percentages then ["categorical_breakdown"] else [])
        ++ (if (a.field_types.filter (fun ft => ft.2.type = "numeric")).length > 2 then
              ["multi_metric"] else [])
    .ok { a with data_patterns := pats }

/-- `_detect_optimal_chart_type` (lines 222-236): a fixed priority chain
over the detected patterns. -/
def detectOptimalChartType (a : Analysis) : String :=
  if a.data_patterns.contains "time_series" then "line"
  else if a.data_patterns.contains "categorical_breakdown" then
    (if a.has_percentages then "pie" else "bar")
  else if a.data_patterns.contains "multi_metric" then "multi-bar"
  else if a.has_categories then "bar"
  else "line"

/-- The per-type `options` block of `_generate_chart_config`; the constant
boilerplate (responsive flags, legend positions, tooltip template) is
implicit in the constructor, only the data-dependent axis titles are
carried. -/
inductive ChartOptions where
  | lineOpts : String → String → ChartOptions
  | barOpts : String → String → ChartOptions
  | pieOpts : ChartOptions
  | emptyOpts : ChartOptions

/-- Python `x_field or "X-Axis"`: `None` and `""` fall back. -/
def orDefaultStr (x : Option String) (d : String) : String :=
  match x with
  | some s => if s = "" then d else s
  | none => d

/-- The config dict of `_generate_chart_config` (lines 239-284). -/
structure ChartConfig where
  type : String
  data : List JVal
  x_field : Option String
  y_field : Option String
  options : ChartOptions

/-- `_generate_chart_config`: echoes the data and resolved fields, and
attaches the per-type options (the `analysis` argument is unused in the
source as well). -/
def generateChartConfig (data : List JVal) (ct : String) (xf yf : Option String)
    (_a : Analysis) : ChartConfig :=
  { type := ct
    data := data
    x_field := xf
    y_field := yf
    options :=
      if ct = "line" then .lineOpts (orDefaultStr xf "X-Axis") (orDefaultStr yf "Y-Axis")
      else if ct = "bar" then .barOpts (orDefaultStr xf "Categories") (orDefaultStr yf "Values")
      else if ct = "pie" then .pieOpts
      else .emptyOpts }

/-- Model of Python `str.title()` for the ASCII strings that occur here:
an alphabetic character is uppercased when the previous character was not
alphabetic and lowercased otherwise. -/
def pyTitleAux : Bool → List Char → List Char
  | _, [] => []
  | prev, c :: cs =>
    (if c.isAlpha then (if prev then c.toLower else c.toUpper) else c)
      :: pyTitleAux c.isAlpha cs

/-- Python `s.title()`. -/
def pyTitle (s : String) : String := String.mk (pyTitleAux false s.data)

/-- `_generate_title` (lines 287-301).  Returns `none` when the source
would raise `AttributeError` by calling `.replace` on a `None` field
(`y_field.replace(...)` with `y_field = None`). -/
def genTitle (cfg : ChartConfig) (a : Analysis) : Option String :=
  if cfg.type = "line" ∧ a.data_patterns.contains "time_series" then
    match cfg.y_field with
    | some y => some (pyTitle (replaceChar y '_' ' ') ++ " Over Time")
    | none => none
  else if cfg.type = "bar" then
    match cfg.y_field, cfg.x_field with
    | some y, some x =>
      some (pyTitle (replaceChar y '_' ' ') ++ " by " ++ pyTitle (replaceChar x '_' ' '))
    | _, _ => none
  else if cfg.type = "pie" then
    match cfg.y_field with
    | some y => some (pyTitle (replaceChar y '_' ' ') ++ " Distribution")
    | none => none
  else some (pyTitle cfg.type ++ " Chart")

/-- Python `sep.join(parts)`. -/
def joinStr (sep : String) : List String → String
  | [] => ""
  | [x] => x
  | x :: y :: xs => x ++ sep ++ joinStr sep (y :: xs)

/-- `_generate_description` (lines 304-319): the base sentence plus one
clause per detected pattern, joined with `". "` and terminated with a
period. -/
def genDescription (a : Analysis) : String :=
  let parts := ["Chart showing " ++ toString a.total_records ++ " data points"]
    ++ (if a.data_patterns.contains "time_series" then ["with time series analysis"] else [])
    ++ (if a.data_patterns.contains "categorical_breakdown" then
          ["with categorical breakdown"] else [])
    ++ (if a.data_patterns.contains "multi_metric" then ["with multiple metrics"] else [])
  joinStr ". " parts ++ "."

/-- The outcome of a `generate_chart_data` call: a chart result, a
structured `{"error": ...}` mapping, or a raised Python exception. -/
structure ChartResult where
  chart_type : String
  title : String
  description : String
  config : ChartConfig
  data_analysis : Analysis
  timestamp : String
  total_data_points : Nat

/-- Result sum for `generate_chart_data`: `ok` is the success dict, `err`
a returned `{"error": msg}` mapping, `exn` a raised exception. -/
inductive GenResult where
  | ok : ChartResult → GenResult
  | err : String → GenResult
  | exn : String → GenResult

/-- `if not title: title = _generate_title(...)` — a `None` or empty
override triggers auto-generation (which can raise, hence `Option`). -/
def resolveTitle (t : Option String) (cfg : ChartConfig) (a : Analysis) : Option String :=
  match t with
  | some s => if s = "" then genTitle cfg a else some s
  | none => genTitle cfg a

/-- `if not description: description = _generate_description(...)`. -/
def resolveDesc (d : Option String) (a : Analysis) : String :=
  match d with
  | some s => if s = "" then genDescription a else s
  | none => genDescription a

/-- Lines 72-91 of `generate_chart_data`, with the chart type and axis
fields already resolved: config, title/description, and the final result
dict.  `now` stands for the wall-clock timestamp read at line 89; a
`None` title from `_generate_title` is a raised `AttributeError`. -/
def buildChartResult (l : List JVal) (a : Analysis) (ct : String)
    (xf yf t d : Option String) (now : String) : GenResult :=
  match resolveTitle t (generateChartConfig l ct xf yf a) a with
  | none => .exn "AttributeError: NoneType object has no attribute replace"
  | some ti =>
    .ok { chart_type := ct
          title := ti
          description := resolveDesc d a
          config := generateChartConfig l ct xf yf a
          data_analysis := a
          timestamp := now
          total_data_points := l.length }

/-- Lines 59-91 of `generate_chart_data`, after the input has been
normalised to a list: structure analysis, chart-type resolution
(`"auto"` invokes detection, anything else is used verbatim), axis
fall-backs for falsy overrides, and the result construction. -/
def generateFromList (l : List JVal) (ct : String) (xf yf t d : Option String)
    (now : String) : GenResult :=
  match analyzeDataStructure l with
  | .error e => .exn e
  | .ok a =>
    buildChartResult l a (if ct = "auto" then detectOptimalChartType a else ct)
      (if optFalsy xf then a.suggested_x_field else xf)
      (if optFalsy yf then a.suggested_y_field else yf) t d now

/-- `generate_chart_data` (lines 12-91) on an already-parsed value: falsy
input is rejected, a single record is wrapped into a one-element list, any
other non-list value is rejected, and the pipeline runs on the list. -/
def generateChartData (data : JVal) (ct : String) (xf yf t d : Option String)
    (now : String) : GenResult :=
  if jTruthy data = false then .err "No data provided"
  else
    match data with
    | .jobj r => generateFromList [.jobj r] ct xf yf t d now
    | .jarr l => generateFromList l ct xf yf t d now
    | _ => .err "Data must be a list of objects or a single object"

/-- The string-input entry of `generate_chart_data` (lines 43-47): an
argument that is a string is first decoded as JSON; `none` stands for a
payload `json.loads` rejects. -/
def generateChartDataOfString (parsed : Option JVal) (ct : String)
    (xf yf t d : Option String) (now : String) : GenResult :=
  match parsed with
  | none => .err "Invalid JSON data provided"
  | some v => generateChartData v ct xf yf t d now

/-- The union of field names over all points, as accumulated by
`create_custom_dataset` lines 350-352.  The source accumulates into a
Python `set` whose iteration order is unspecified; the model fixes the
order via `dedup`, which is immaterial to the set-level claims. -/
def allFieldsOf (points : List JVal) : List String :=
  ((points.map recordKeys).flatten).dedup

/-- `[point.get(field) for point in data_points if field in point]`
(line 368): one value per point that carries the field, nulls included.
Non-record points cannot reach this line (they are rejected earlier). -/
def gatherValues (points : List JVal) (field : String) : List SVal :=
  points.filterMap (fun p =>
    match p with
    | .jobj r => aget r field
    | _ => none)

/-- The `data_types` metadata of `create_custom_dataset` (lines 366-371):
for each field of the union with at least one present value, the
classifier's `type`. -/
def dataTypesOf (points : List JVal) : List (String × String) :=
  (allFieldsOf points).filterMap (fun f =>
    if gatherValues points f = [] then none
    else some (f, (analyzeField f (gatherValues points f)).type))

/-- The dataset dict returned by `create_custom_dataset`, with the
`metadata` sub-dict flattened into the structure. -/
structure Dataset where
  name : String
  description : String
  data : List JVal
  total_records : Nat
  fields : List String
  created_at : String
  data_types : List (String × String)

/-- Result sum for `create_custom_dataset`. -/
inductive DatasetResult where
  | ok : Dataset → DatasetResult
  | err : String → DatasetResult

/-- `create_custom_dataset` (lines 322-373): empty input and non-record
points are rejected with structured errors; otherwise the dataset with its
field union and per-field type metadata is built. -/
def createCustomDataset (name desc : String) (points : List JVal)
    (now : String) : DatasetResult :=
  if points.isEmpty then .err "No data points provided"
  else if ¬ points.all isObjB then .err "All data points must be dictionaries"
  else
    .ok { name := name
          description := desc
          data := points
          total_records := points.length
          fields := allFieldsOf points
          created_at := now
          data_types := dataTypesOf points }

/-- Whether a scalar is a string (`isinstance(val, str)`). -/
def isStrB : SVal → Bool
  | .sstr _ => true
  | _ => false

/-- Whether a parsed value is a list. -/
def isArrB : JVal → Bool
  | .jarr _ => true
  | _ => false

/-- Whether a call produced the success dict. -/
def GenResult.isOk : GenResult → Bool
  | .ok _ => true
  | _ => false

/-- Whether a call returned the structured error mapping with the given
message. -/
def GenResult.isErrMsg : GenResult → String → Bool
  | .err e, m => e == m
  | _, _ => false

/-- The description of a successful result. -/
def GenResult.description? : GenResult → Option String
  | .ok r => some r.description
  | _ => none

/-- A result with its advisory timestamp blanked, for comparing two calls
up to the wall clock. -/
def GenResult.eraseTimestamp : GenResult → GenResult
  | .ok r => .ok { r with timestamp := "" }
  | x => x

/-- Number of values in the claim's sense that "parse successfully" under
a pattern within the 10-value prefix: the string values the pattern
accepts (stated from the claim's words, for comparison with the code's
`tryPattern`, which instead aborts a pattern at its first failure). -/
def specDatePrefixParseCount (p : DPattern) (values : List SVal) : Nat :=
  ((values.take 10).filter (fun v =>
    match v with
    | .sstr s => strptimeOk p s
    | _ => false)).length

/-- The condition under which the code actually accepts a pattern
(amended claim C5): every string value within the 10-value prefix parses,
and the number of string values strictly exceeds 80% of the prefix
length. -/
def specPatternAccepts (p : DPattern) (values : List SVal) : Bool :=
  (values.take 10).all (fun v =>
    match v with
    | .sstr s => strptimeOk p s
    | _ => true)
  && 5 * ((values.take 10).filter isStrB).length > 4 * (values.take 10).length

/-- The type `_analyze_field` ends up assigning, as a standalone chain: a
date-pattern hit always wins (it is checked last and overwrites), then the
numeric threshold, then the categorical/text fallback. -/
def classifyType (values : List SVal) : String :=
  match dateDetect values with
  | some p => kindOf p
  | none =>
    if (numericScan values).1.length * 5 > values.length * 4 then "numeric"
    else if ((values.map strRepr).dedup.length) * 2 < values.length then "categorical"
    else "text"

theorem kindOf_ne_unknown (p : DPattern) : kindOf p ≠ "unknown" := by
  unfold kindOf
  split <;> decide

theorem kindOf_cases (p : DPattern) : kindOf p = "date" ∨ kindOf p = "datetime" := by
  unfold kindOf
  split <;> simp

theorem analyzeField_type (name : String) (values : List SVal) :
    (analyzeField name values).type = classifyType values := by
  unfold analyzeField classifyType
  cases hd : dateDetect values with
  | none =>
    by_cases hn : (numericScan values).1.length * 5 > values.length * 4 <;>
      simp [hn, hd] <;> try (split <;> rfl)
  | some p =>
    have hk := kindOf_ne_unknown p
    by_cases hn : (numericScan values).1.length * 5 > values.length * 4 <;>
      simp [hn, hd, hk]

theorem analyzeField_range (name : String) (values : List SVal)
    (hn : (numericScan values).1.length * 5 > values.length * 4) :
    (analyzeField name values).range
      = some (listMin (numericScan values).1, listMax (numericScan values).1) := by
  unfold analyzeField
  cases hd : dateDetect values with
  | none =>
    simp [hn, hd] <;> try (split <;> rfl)
  | some p =>
    have hk := kindOf_ne_unknown p
    simp [hn, hd, hk]

theorem analyzeField_average (name : String) (values : List SVal)
    (hn : (numericScan values).1.length * 5 > values.length * 4) :
    (analyzeField name values).average
      = some (listSum (numericScan values).1 / ((numericScan values).1.length : ℚ)) := by
  unfold analyzeField
  cases hd : dateDetect values with
  | none =>
    simp [hn, hd] <;> try (split <;> rfl)
  | some p =>
    have hk := kindOf_ne_unknown p
    simp [hn, hd, hk]

theorem analyzeField_date_formats (name : String) (values : List SVal) :
    (analyzeField name values).date_formats
      = match dateDetect values with
        | some p => [p.fmt]
        | none => [] := by
  unfold analyzeField
  cases hd : dateDetect values with
  | none =>
    by_cases hn : (numericScan values).1.length * 5 > values.length * 4 <;>
      simp [hn, hd] <;> try (split <;> rfl)
  | some p =>
    have hk := kindOf_ne_unknown p
    by_cases hn : (numericScan values).1.length * 5 > values.length * 4 <;>
      simp [hn, hd, hk]

theorem tryPattern_eq (p : DPattern) (l : List SVal) :
    tryPattern p l =
      if l.all (fun v =>
          match v with
          | .sstr s => strptimeOk p s
          | _ => true)
      then some ((l.filter isStrB).length) else none := by
  induction l with
  | nil => rfl
  | cons v vs ih =>
    cases v with
    | sstr s =>
      by_cases hs : strptimeOk p s <;>
        simp [tryPattern, hs, ih, isStrB, List.filter_cons] <;>
        split <;> simp
    | snull => simpa [tryPattern, isStrB, List.filter_cons] using ih
    | sbool b => simpa [tryPattern, isStrB, List.filter_cons] using ih
    | sint n => simpa [tryPattern, isStrB, List.filter_cons] using ih
    | sfloat q => simpa [tryPattern, isStrB, List.filter_cons] using ih

theorem patternHit_eq (p : DPattern) (values : List SVal) :
    patternHit p values = specPatternAccepts p values := by
  unfold patternHit specPatternAccepts
  simp only [tryPattern_eq]
  by_cases h : (values.take 10).all (fun v =>
      match v with
      | .sstr s => strptimeOk p s
      | _ => true) <;>
    simp [h]

theorem find?_congr_pred {α : Type} (l : List α) (p q : α → Bool)
    (h : ∀ x, p x = q x) : l.find? p = l.find? q := by
  induction l with
  | nil => rfl
  | cons a t ih => simp [List.find?, h a, ih]

theorem dateDetect_eq (values : List SVal) :
    dateDetect values = datePatterns.find? (fun p => specPatternAccepts p values) := by
  unfold dateDetect
  exact find?_congr_pred _ _ _ (fun p => patternHit_eq p values)

/-- A value list on which strictly more than 80% of all values parse as
numeric (41 of 51) while the 10-value prefix consists of date strings. -/
def c1Values : List SVal :=
  List.replicate 10 (SVal.sstr "2024-01-01") ++ List.replicate 41 (SVal.sint 1)

/-- C1 is false as stated: on `c1Values` the numeric threshold is met
(41 of 51 values parse as numeric, and 41 * 5 = 205 > 204 = 51 * 4), yet
the classifier returns `date`, because the date check runs after the
numeric check unconditionally and overwrites its result. -/
theorem C1_counterexample :
    (numericScan c1Values).1.length * 5 > c1Values.length * 4 ∧
    (analyzeField "mixed" c1Values).type = "date" := by
  constructor
  · decide
  · rfl

/-- C1 amended: numeric classification wins only when no date pattern
clears its prefix threshold; the date check runs unconditionally after the
numeric check, and a date-pattern hit overwrites the numeric result with
the pattern's `date`/`datetime` kind. -/
theorem C1_numeric_precedence_amended (name : String) (values : List SVal)
    (hnum : (numericScan values).1.length * 5 > values.length * 4) :
    (dateDetect values = none → (analyzeField name values).type = "numeric") ∧
    (∀ p : DPattern, dateDetect values = some p →
      (analyzeField name values).type = kindOf p) := by
  constructor
  · intro hd
    rw [analyzeField_type]
    simp [classifyType, hd, hnum]
  · intro p hd
    rw [analyzeField_type]
    simp [classifyType, hd]

/-- Witness for C1's amended theorem at the single value `1`. -/
theorem C1_witness :
    ((numericScan [SVal.sint 1]).1.length * 5 > [SVal.sint 1].length * 4) ∧
    dateDetect [SVal.sint 1] = none ∧
    (analyzeField "n" [SVal.sint 1]).type = "numeric" :=
  ⟨by decide, by decide,
    (C1_numeric_precedence_amended "n" [SVal.sint 1] (by decide)).1 (by decide)⟩

/-- A value list in which exactly 80% of the values parse as numeric. -/
def c4Values : List SVal :=
  [SVal.sstr "1", SVal.sstr "2", SVal.sstr "3", SVal.sstr "4", SVal.sstr "x"]

/-- C4 is false as stated: on `c4Values` at least 80% of the values parse
as numeric (4 of 5, exactly the 80% bound), yet the classifier returns
`text`, because the source's threshold is strict
(`len(numeric_values) > len(values) * 0.8`). -/
theorem C4_counterexample :
    (numericScan c4Values).1.length * 5 ≥ c4Values.length * 4 ∧
    (analyzeField "mostly_numbers" c4Values).type = "text" := by
  constructor
  · decide
  · rfl

/-- C4 amended: when strictly more than 80% of the values parse as
numeric and no date pattern subsequently clears its prefix threshold (a
hit would overwrite the type, see C1), the field is numeric with
`range = [min, max]` and `average = mean` of the parsed values. -/
theorem C4_numeric_threshold_amended (name : String) (values : List SVal)
    (hnum : (numericScan values).1.length * 5 > values.length * 4)
    (hdate : dateDetect values = none) :
    (analyzeField name values).type = "numeric" ∧
    (analyzeField name values).range
      = some (listMin (numericScan values).1, listMax (numericScan values).1) ∧
    (analyzeField name values).average
      = some (listSum (numericScan values).1 / ((numericScan values).1.length : ℚ)) := by
  refine ⟨?_, analyzeField_range name values hnum, analyzeField_average name values hnum⟩
  rw [analyzeField_type]
  simp [classifyType, hdate, hnum]

/-- Witness for C4's amended theorem on the values 1, 2, 2.5 as strings. -/
theorem C4_witness :
    ((numericScan [SVal.sstr "1", SVal.sstr "2", SVal.sstr "2.5"]).1.length * 5
        > [SVal.sstr "1", SVal.sstr "2", SVal.sstr "2.5"].length * 4) ∧
    dateDetect [SVal.sstr "1", SVal.sstr "2", SVal.sstr "2.5"] = none ∧
    ((analyzeField "xs" [SVal.sstr "1", SVal.sstr "2", SVal.sstr "2.5"]).type = "numeric" ∧
      (analyzeField "xs" [SVal.sstr "1", SVal.sstr "2", SVal.sstr "2.5"]).range
        = some (listMin (numericScan [SVal.sstr "1", SVal.sstr "2", SVal.sstr "2.5"]).1,
                listMax (numericScan [SVal.sstr "1", SVal.sstr "2", SVal.sstr "2.5"]).1) ∧
      (analyzeField "xs" [SVal.sstr "1", SVal.sstr "2", SVal.sstr "2.5"]).average
        = some (listSum (numericScan [SVal.sstr "1", SVal.sstr "2", SVal.sstr "2.5"]).1
            / ((numericScan [SVal.sstr "1", SVal.sstr "2", SVal.sstr "2.5"]).1.length : ℚ))) :=
  ⟨by decide, by decide,
    C4_numeric_threshold_amended "xs" _ (by decide) (by decide)⟩

/-- A value list whose 10-value prefix is 90% parseable under
`"%Y-%m-%d"` but whose first value fails to parse. -/
def c5Values : List SVal :=
  SVal.sstr "x" :: List.replicate 9 (SVal.sstr "2024-01-01")

/-- C5 is false as stated: on `c5Values` 9 of the 10 prefix values (90%,
clearing the claimed 80% bar) parse under the first pattern, yet the field
is classified `categorical`, not `date`: the source counts parses inside a
`try` block, so the first `ValueError` aborts the entire pattern. -/
theorem C5_counterexample :
    specDatePrefixParseCount patYmd c5Values * 5 ≥ (c5Values.take 10).length * 4 ∧
    (analyzeField "dates" c5Values).type = "categorical" := by
  constructor
  · decide
  · rfl

/-- C5 amended: a pattern is accepted iff every string value within the
10-value prefix parses under it and the string values make up strictly
more than 80% of the prefix; the first pattern in declared order that
satisfies this classifies the field as the pattern's `date`/`datetime`
kind and is recorded in `date_formats`. -/
theorem C5_date_detection_amended (name : String) (values : List SVal) (p : DPattern)
    (h : datePatterns.find? (fun q => specPatternAccepts q values) = some p) :
    (analyzeField name values).type = kindOf p ∧
    (analyzeField name values).date_formats = [p.fmt] := by
  have hd : dateDetect values = some p := by rw [dateDetect_eq]; exact h
  constructor
  · rw [analyzeField_type]
    simp [classifyType, hd]
  · rw [analyzeField_date_formats, hd]

/-- Witness for C5's amended theorem on a single ISO date string. -/
theorem C5_witness :
    datePatterns.find? (fun q => specPatternAccepts q [SVal.sstr "2024-01-01"])
        = some patYmd ∧
    ((analyzeField "day" [SVal.sstr "2024-01-01"]).type = kindOf patYmd ∧
      (analyzeField "day" [SVal.sstr "2024-01-01"]).date_formats = [patYmd.fmt]) :=
  ⟨by decide, C5_date_detection_amended "day" [SVal.sstr "2024-01-01"] patYmd (by decide)⟩

/-- C10: for every non-empty value list the classifier returns one of the
five concrete types, never `unknown`: a date hit yields `date`/`datetime`,
the numeric branch yields `numeric`, and any still-`unknown` type is
replaced by the categorical/text fallback. -/
theorem C10_no_unknown (name : String) (values : List SVal)
    (hne : values ≠ []) :
    (analyzeField name values).type
      ∈ ["numeric", "date", "datetime", "categorical", "text"] := by
  rw [analyzeField_type]
  unfold classifyType
  cases hd : dateDetect values with
  | none =>
    by_cases hn : (numericScan values).1.length * 5 > values.length * 4
    · simp [hn]
    · by_cases hu : ((values.map strRepr).dedup.length) * 2 < values.length <;>
        simp [hn, hu]
  | some p =>
    rcases kindOf_cases p with h | h <;> simp [h]

/-- Witness for C10 on a one-element text value list. -/
theorem C10_witness :
    (analyzeField "w" [SVal.sstr "a"]).type
      ∈ ["numeric", "date", "datetime", "categorical", "text"] :=
  C10_no_unknown "w" [SVal.sstr "a"] (by simp)

/-- A dataset with a date field but no numeric field, so
`suggested_y_field` stays `None`. -/
def c2Data : JVal := .jarr [.jobj [("date", SVal.sstr "2024-01-01")]]

/-- C2 is wrong about the code: on a dataset with only a date field the
resolved chart type is `line` with the `time_series` pattern set, so
`_generate_title` evaluates `y_field.replace(...)` with `y_field = None`
and raises `AttributeError` instead of returning a mapping.  The spec's
intent (structured errors, never thrown; absent axis fields are valid) is
clear from the tool's error handling and docstring, so the unguarded
`.replace` is a code bug. -/
theorem C2_crash_on_missing_y_field :
    generateChartData c2Data "auto" none none none none "2024-01-01T00:00:00Z"
      = .exn "AttributeError: NoneType object has no attribute replace" := rfl

/-- A parsed list whose elements are not records. -/
def c3List : JVal := .jarr [.jint 1, .jint 2, .jint 3]

/-- C3 is false as stated: a list whose elements are not records does not
produce the claimed shape error — the code only checks the top-level
container, so `[1, 2, 3]` is processed successfully (with an empty field
set drawn from its non-record first element). -/
theorem C3_counterexample :
    (generateChartData c3List "auto" none none none none "t0").isOk = true ∧
    (generateChartData c3List "auto" none none none none "t0").isErrMsg
        "Data must be a list of objects or a single object" = false := by
  exact ⟨rfl, rfl⟩

/-- C3 amended: the shape error is returned exactly for truthy parsed
values that are neither a mapping nor a list; falsy parsed values yield
the `"No data provided"` error first, and the elements of a list are
never validated. -/
theorem C3_shape_error_amended (ct : String) (xf yf t d : Option String) (now : String) :
    (∀ v : JVal, jTruthy v = true → isObjB v = false → isArrB v = false →
        generateChartData v ct xf yf t d now
          = .err "Data must be a list of objects or a single object") ∧
    (∀ v : JVal, jTruthy v = false →
        generateChartData v ct xf yf t d now = .err "No data provided") := by
  constructor
  · intro v h1 h2 h3
    cases v <;> simp_all [generateChartData, isObjB, isArrB]
  · intro v h1
    simp [generateChartData, h1]

/-- Witness for C3's amended theorem on the parsed string `"hello"`. -/
theorem C3_witness :
    generateChartData (JVal.jstr "hello") "auto" none none none none "t0"
      = .err "Data must be a list of objects or a single object" :=
  (C3_shape_error_amended "auto" none none none none "t0").1 (JVal.jstr "hello")
    rfl rfl rfl

/-- A time-series dataset: two records of one date field and one numeric
field. -/
def c6Data : JVal :=
  .jarr [.jobj [("date", SVal.sstr "2024-01-01"), ("value", SVal.sint 1)],
         .jobj [("date", SVal.sstr "2024-01-02"), ("value", SVal.sint 2)]]

/-- C6 is false as stated: the clauses are joined with `". "` (the source
uses `". ".join(desc_parts)`), not with commas, so the generated
description reads `"... data points. with time series analysis."` rather
than the claimed `"... data points, with time series analysis."`. -/
theorem C6_counterexample :
    (generateChartData c6Data "auto" none none none none "t0").description?
        = some "Chart showing 2 data points. with time series analysis." ∧
    "Chart showing 2 data points. with time series analysis."
        ≠ "Chart showing 2 data points, with time series analysis." := by
  exact ⟨rfl, by decide⟩

/-- C6 amended: the description is the base sentence with each applicable
clause appended after a `". "` separator (not a comma), terminated with a
period. -/
theorem C6_description_amended (a : Analysis) :
    genDescription a =
      "Chart showing " ++ toString a.total_records ++ " data points"
        ++ (if a.data_patterns.contains "time_series"
            then ". with time series analysis" else "")
        ++ (if a.data_patterns.contains "categorical_breakdown"
            then ". with categorical breakdown" else "")
        ++ (if a.data_patterns.contains "multi_metric"
            then ". with multiple metrics" else "")
        ++ "." := by
  unfold genDescription
  by_cases h1 : "time_series" ∈ a.data_patterns <;>
    by_cases h2 : "categorical_breakdown" ∈ a.data_patterns <;>
      by_cases h3 : "multi_metric" ∈ a.data_patterns <;>
        simp [h1, h2, h3, joinStr, String.append_assoc]

theorem buildChartResult_ok_chart_type (l : List JVal) (a : Analysis)
    (ct : String) (xf yf t d : Option String) (now : String) (r : ChartResult)
    (h : buildChartResult l a ct xf yf t d now = .ok r) : r.chart_type = ct := by
  unfold buildChartResult at h
  cases hres : resolveTitle t (generateChartConfig l ct xf yf a) a <;> rw [hres] at h
  · exact absurd h (by simp)
  · cases h
    rfl

theorem genFromList_ok_chart_type (l : List JVal) (ct : String)
    (xf yf t d : Option String) (now : String) (r : ChartResult)
    (h : generateFromList l ct xf yf t d now = .ok r) :
    ∃ a, analyzeDataStructure l = .ok a ∧
      r.chart_type = (if ct = "auto" then detectOptimalChartType a else ct) := by
  unfold generateFromList at h
  cases ha : analyzeDataStructure l with
  | error e =>
    rw [ha] at h
    exact absurd h (by simp)
  | ok a =>
    rw [ha] at h
    exact ⟨a, rfl, buildChartResult_ok_chart_type _ _ _ _ _ _ _ _ _ h⟩

/-- C7: chart-type resolution is the source's fixed priority chain —
`time_series` gives `line`; otherwise `categorical_breakdown` gives `pie`
when percentages were seen and `bar` otherwise; otherwise `multi_metric`
gives `multi-bar`; otherwise categorical data gives `bar`; otherwise
`line` — and an explicitly supplied chart type (anything other than
`"auto"`) is carried into the result verbatim. -/
theorem C7_chart_type_priority :
    (∀ a : Analysis, "time_series" ∈ a.data_patterns →
        detectOptimalChartType a = "line") ∧
    (∀ a : Analysis, "time_series" ∉ a.data_patterns →
        "categorical_breakdown" ∈ a.data_patterns →
        detectOptimalChartType a = (if a.has_percentages then "pie" else "bar")) ∧
    (∀ a : Analysis, "time_series" ∉ a.data_patterns →
        "categorical_breakdown" ∉ a.data_patterns →
        "multi_metric" ∈ a.data_patterns →
        detectOptimalChartType a = "multi-bar") ∧
    (∀ a : Analysis, "time_series" ∉ a.data_patterns →
        "categorical_breakdown" ∉ a.data_patterns →
        "multi_metric" ∉ a.data_patterns →
        a.has_categories = true →
        detectOptimalChartType a = "bar") ∧
    (∀ a : Analysis, "time_series" ∉ a.data_patterns →
        "categorical_breakdown" ∉ a.data_patterns →
        "multi_metric" ∉ a.data_patterns →
        a.has_categories = false →
        detectOptimalChartType a = "line") ∧
    (∀ (data : JVal) (ct : String) (xf yf t d : Option String) (now : String)
        (r : ChartResult), ct ≠ "auto" →
        generateChartData data ct xf yf t d now = .ok r →
        r.chart_type = ct) ∧
    (∀ (l : List JVal) (xf yf t d : Option String) (now : String)
        (a : Analysis) (r : ChartResult),
        analyzeDataStructure l = .ok a →
        generateFromList l "auto" xf yf t d now = .ok r →
        r.chart_type = detectOptimalChartType a) := by
  refine ⟨?_, ?_, ?_, ?_, ?_, ?_, ?_⟩
  · intro a h1
    simp [detectOptimalChartType, h1]
  · intro a h1 h2
    simp [detectOptimalChartType, h1, h2]
  · intro a h1 h2 h3
    simp [detectOptimalChartType, h1, h2, h3]
  · intro a h1 h2 h3 h4
    simp [detectOptimalChartType, h1, h2, h3, h4]
  · intro a h1 h2 h3 h4
    simp [detectOptimalChartType, h1, h2, h3, h4]
  · intro data ct xf yf t d now r hct h
    unfold generateChartData at h
    split at h
    · exact absurd h (by simp)
    · cases data with
      | jobj rec =>
        obtain ⟨a, -, hty⟩ :=
          genFromList_ok_chart_type [JVal.jobj rec] ct xf yf t d now r h
        rw [hty, if_neg hct]
      | jarr xs =>
        obtain ⟨a, -, hty⟩ :=
          genFromList_ok_chart_type xs ct xf yf t d now r h
        rw [hty, if_neg hct]
      | jnull => exact absurd h (by simp)
      | jbool b => exact absurd h (by simp)
      | jint n => exact absurd h (by simp)
      | jfloat q => exact absurd h (by simp)
      | jstr s => exact absurd h (by simp)
  · intro l xf yf t d now a r ha h
    obtain ⟨a', ha', hty⟩ := genFromList_ok_chart_type _ _ _ _ _ _ _ _ h
    rw [ha] at ha'
    cases ha'
    rw [hty, if_pos rfl]

/-- An analysis carrying only the `time_series` pattern. -/
def c7Analysis : Analysis :=
  { total_records := 1
    fields := []
    field_types := []
    has_time_series := true
    has_categories := false
    has_percentages := true
    suggested_x_field := none
    suggested_y_field := none
    data_patterns := ["time_series"] }

/-- Witness for C7 at concrete analyses: `time_series` wins over every
later rule, `categorical_breakdown` with percentages yields `pie`, and
the empty pattern set falls back to `line`. -/
theorem C7_witness :
    detectOptimalChartType c7Analysis = "line" ∧
    detectOptimalChartType
        { c7Analysis with data_patterns := ["categorical_breakdown"] } = "pie" ∧
    detectOptimalChartType
        { c7Analysis with data_patterns := ["multi_metric"], has_percentages := false }
      = "multi-bar" ∧
    detectOptimalChartType
        { c7Analysis with data_patterns := [], has_categories := true } = "bar" ∧
    detectOptimalChartType { c7Analysis with data_patterns := [] } = "line" :=
  ⟨C7_chart_type_priority.1 c7Analysis (by decide),
   (C7_chart_type_priority.2.1 _ (by decide) (by decide)).trans (by decide),
   C7_chart_type_priority.2.2.1 _ (by decide) (by decide) (by decide),
   C7_chart_type_priority.2.2.2.1 _ (by decide) (by decide) (by decide) rfl,
   C7_chart_type_priority.2.2.2.2.1 _ (by decide) (by decide) (by decide) rfl⟩

theorem buildChartResult_eraseTimestamp (l : List JVal) (a : Analysis)
    (ct : String) (xf yf t d : Option String) (n1 n2 : String) :
    (buildChartResult l a ct xf yf t d n1).eraseTimestamp =
      (buildChartResult l a ct xf yf t d n2).eraseTimestamp := by
  unfold buildChartResult
  cases resolveTitle t (generateChartConfig l ct xf yf a) a <;> rfl

theorem genFromList_eraseTimestamp (l : List JVal) (ct : String)
    (xf yf t d : Option String) (n1 n2 : String) :
    (generateFromList l ct xf yf t d n1).eraseTimestamp =
      (generateFromList l ct xf yf t d n2).eraseTimestamp := by
  unfold generateFromList
  cases ha : analyzeDataStructure l with
  | error e => rfl
  | ok a => exact buildChartResult_eraseTimestamp _ _ _ _ _ _ _ _ _

/-- C8: `generate_chart_data` is deterministic up to the advisory
timestamp — the wall clock (modelled as the explicit `now` argument, the
call's only impure input) influences nothing but the `timestamp` field,
so two calls with identical arguments agree on `chart_type`, `title`,
`description`, `config` and `data_analysis`. -/
theorem C8_determinism (data : JVal) (ct : String) (xf yf t d : Option String)
    (n1 n2 : String) :
    (generateChartData data ct xf yf t d n1).eraseTimestamp =
      (generateChartData data ct xf yf t d n2).eraseTimestamp := by
  unfold generateChartData
  split
  · rfl
  · cases data <;> first
      | rfl
      | apply genFromList_eraseTimestamp

theorem aget_isSome_of_mem_keys (r : Record) (f : String)
    (h : f ∈ r.map Prod.fst) : (aget r f).isSome = true := by
  induction r with
  | nil => simp at h
  | cons kv rest ih =>
    obtain ⟨k, v⟩ := kv
    simp only [List.map_cons, List.mem_cons] at h
    unfold aget
    by_cases hk : k = f
    · simp [hk]
    · rcases h with h | h
      · exact absurd h.symm hk
      · simp [hk, ih h]

theorem mem_allFieldsOf (points : List JVal) (f : String) :
    f ∈ allFieldsOf points ↔ ∃ p ∈ points, f ∈ recordKeys p := by
  unfold allFieldsOf
  rw [List.mem_dedup, List.mem_flatten]
  constructor
  · rintro ⟨l, hl, hf⟩
    obtain ⟨p, hp, rfl⟩ := List.mem_map.mp hl
    exact ⟨p, hp, hf⟩
  · rintro ⟨p, hp, hf⟩
    exact ⟨recordKeys p, List.mem_map.mpr ⟨p, hp, rfl⟩, hf⟩

theorem gatherValues_ne_nil (points : List JVal)
    (hobj : ∀ p ∈ points, isObjB p = true) (f : String)
    (hf : f ∈ allFieldsOf points) : gatherValues points f ≠ [] := by
  rw [mem_allFieldsOf] at hf
  obtain ⟨p, hp, hk⟩ := hf
  intro hnil
  unfold gatherValues at hnil
  rw [List.filterMap_eq_nil_iff] at hnil
  have hnone := hnil p hp
  cases p with
  | jobj r =>
    have hs := aget_isSome_of_mem_keys r f (by simpa [recordKeys] using hk)
    simp only at hnone
    rw [hnone] at hs
    simp at hs
  | jnull => simpa [isObjB] using hobj _ hp
  | jbool b => simpa [isObjB] using hobj _ hp
  | jint n => simpa [isObjB] using hobj _ hp
  | jfloat q => simpa [isObjB] using hobj _ hp
  | jstr s => simpa [isObjB] using hobj _ hp
  | jarr xs => simpa [isObjB] using hobj _ hp

theorem filterMap_eq_map_of {α β : Type} (l : List α) (f : α → Option β) (g : α → β)
    (h : ∀ x ∈ l, f x = some (g x)) : l.filterMap f = l.map g := by
  induction l with
  | nil => rfl
  | cons a t ih =>
    rw [List.filterMap_cons, h a (List.mem_cons_self a t), List.map_cons,
        ih (fun x hx => h x (List.mem_cons_of_mem a hx))]

theorem dataTypesOf_eq (points : List JVal)
    (hobj : ∀ p ∈ points, isObjB p = true) :
    dataTypesOf points = (allFieldsOf points).map
      (fun f => (f, (analyzeField f (gatherValues points f)).type)) := by
  unfold dataTypesOf
  apply filterMap_eq_map_of
  intro f hf
  rw [if_neg (gatherValues_ne_nil points hobj f hf)]

/-- C9: on non-empty all-record input, `create_custom_dataset` succeeds
and its metadata covers exactly the union of keys across all records (not
just the first record's keys): the `fields` list is the union, and
`data_types` carries, for every union field, the classifier's
`semantic_type` over the values present for that field across all
records.  Empty input and non-record elements yield the respective
structured validation errors. -/
theorem C9_custom_dataset_union (name desc now : String) :
    (∀ points : List JVal, points ≠ [] → (∀ p ∈ points, isObjB p = true) →
      ∃ ds, createCustomDataset name desc points now = .ok ds ∧
        (∀ f, f ∈ ds.fields ↔ ∃ p ∈ points, f ∈ recordKeys p) ∧
        ds.data_types = ds.fields.map
          (fun f => (f, (analyzeField f (gatherValues points f)).type))) ∧
    createCustomDataset name desc [] now = .err "No data points provided" ∧
    (∀ points : List JVal, ∀ q ∈ points, isObjB q = false →
      createCustomDataset name desc points now
        = .err "All data points must be dictionaries") := by
  refine ⟨?_, rfl, ?_⟩
  · intro points hne hobj
    have hisE : points.isEmpty = false := by
      cases points with
      | nil => exact absurd rfl hne
      | cons a t => rfl
    have hall : points.all isObjB = true := List.all_eq_true.mpr hobj
    unfold createCustomDataset
    rw [hisE]
    simp only [Bool.false_eq_true, if_false]
    rw [if_neg (by simp [hall])]
    exact ⟨_, rfl, fun f => mem_allFieldsOf points f, dataTypesOf_eq points hobj⟩
  · intro points q hq hnotobj
    have hisE : points.isEmpty = false := by
      cases points with
      | nil => simp at hq
      | cons a t => rfl
    have hall : points.all isObjB = false := by
      rw [List.all_eq_false]
      exact ⟨q, hq, by simp [hnotobj]⟩
    unfold createCustomDataset
    rw [hisE, hall]
    simp

/-- Witness for C9 on two heterogeneous records. -/
theorem C9_witness :
    ∃ ds, createCustomDataset "sales" "demo"
        [JVal.jobj [("a", SVal.sint 1)], JVal.jobj [("b", SVal.sstr "x")]] "t0"
        = .ok ds ∧
      (∀ f, f ∈ ds.fields ↔ ∃ p ∈
          [JVal.jobj [("a", SVal.sint 1)], JVal.jobj [("b", SVal.sstr "x")]],
          f ∈ recordKeys p) ∧
      ds.data_types = ds.fields.map
        (fun f => (f, (analyzeField f (gatherValues
          [JVal.jobj [("a", SVal.sint 1)], JVal.jobj [("b", SVal.sstr "x")]] f)).type)) :=
  (C9_custom_dataset_union "sales" "demo" "t0").1
    [JVal.jobj [("a", SVal.sint 1)], JVal.jobj [("b", SVal.sstr "x")]]
    (List.cons_ne_nil _ _)
    (by
      intro p hp
      simp only [List.mem_cons, List.not_mem_nil, or_false] at hp
      rcases hp with rfl | rfl <;> rfl)
